import Mathlib

/-!
Verification of the chainparams trust-anchor constants pipeline.

The repository fragment under study is the generated artifact
src/networks/abc/chainparamsconstants.cpp, which holds per-network
trust-anchor constants (assume-valid block hash, minimum chain work,
assumed on-disk sizes).  The design document describes the generator
(Chain Surveyor, Anchor Selector, Constants Emitter) and the node-side
consumer (Checkpoint and Work-Threshold Validator).  Only the emitted
artifact is present as source; the surrounding components are modelled
here from the design document and checked against the artifact.
-/

namespace ChainParams

/-! ## Hex encoding and decoding

The artifact stores the assume-valid hash and the minimum chain work as
hexadecimal strings of 64 digits (32 bytes, big-endian). -/

def hexDigitValue (c : Char) : Option Nat :=
  if c.toNat ≥ 48 && c.toNat ≤ 57 then some (c.toNat - 48)
  else if c.toNat ≥ 97 && c.toNat ≤ 102 then some (c.toNat - 87)
  else if c.toNat ≥ 65 && c.toNat ≤ 70 then some (c.toNat - 55)
  else none

def isHexDigit (c : Char) : Bool :=
  (hexDigitValue c).isSome

def parseHexDigits (cs : List Char) : Option Nat :=
  cs.foldl (fun acc c => acc.bind (fun a => (hexDigitValue c).map (fun v => 16 * a + v))) (some 0)

/-- Modelled from the spec: the artifact's hash fields are hex strings encoding
exactly 32 bytes (64 hex digits); the implementation of BlockHash.fromHex is
not under src/.  Parsing yields the 256-bit value, or none when malformed. -/
def blockHashFromHex (s : String) : Option Nat :=
  if s.length == 64 && s.data.all isHexDigit then parseHexDigits s.data else none

/-- Modelled from the spec: the minimum chain work field is a hex string
encoding a big-endian unsigned 256-bit integer; the implementation of
uint256S is not under src/. -/
def uint256S (s : String) : Option Nat :=
  if s.length == 64 && s.data.all isHexDigit then parseHexDigits s.data else none

def hexChar (n : Nat) : Char :=
  if n < 10 then Char.ofNat (48 + n) else Char.ofNat (87 + n)

/-- Render a 256-bit value as a 64-digit lowercase big-endian hex string. -/
def toHex64 (n : Nat) : String :=
  String.mk ((List.range 64).map (fun i => hexChar (n / 16 ^ (63 - i) % 16)))

/-! ## The compiled artifact (src/networks/abc/chainparamsconstants.cpp)

The string constants below are the exact string literals of the source
file; the numeric constants are its integer literals. -/

def MAINNET_DEFAULT_ASSUME_VALID_HEX : String :=
  "0000000000000000035571d03330a6a5f9e36dc6b279c1e269f5c8bd1b8f9333"

def MAINNET_MINIMUM_CHAIN_WORK_HEX : String :=
  "0000000000000000000000000000000000000000016916c574b4e382c788daf9"

def MAINNET_ASSUMED_BLOCKCHAIN_SIZE : Nat := 211

def MAINNET_ASSUMED_CHAINSTATE_SIZE : Nat := 3

def TESTNET_DEFAULT_ASSUME_VALID_HEX : String :=
  "0000000001ef45e07fc7d2918c689a7e995fba24124ecc0f449632b17554eec1"

def TESTNET_MINIMUM_CHAIN_WORK_HEX : String :=
  "00000000000000000000000000000000000000000000006e9e42b8468784a16e"

def TESTNET_ASSUMED_BLOCKCHAIN_SIZE : Nat := 55

def TESTNET_ASSUMED_CHAINSTATE_SIZE : Nat := 2

/-- The full text of src/networks/abc/chainparamsconstants.cpp, byte for byte. -/
def chainparamsconstants_cpp : String :=
  "/**\n * @generated by contrib/devtools/chainparams/generate_chainparams_constants.py\n */\n\n#include <chainparamsconstants.h>\n\nnamespace ChainParamsConstants \x7b\n    const BlockHash MAINNET_DEFAULT_ASSUME_VALID = BlockHash::fromHex(\"0000000000000000035571d03330a6a5f9e36dc6b279c1e269f5c8bd1b8f9333\");\n    const uint256 MAINNET_MINIMUM_CHAIN_WORK = uint256S(\"0000000000000000000000000000000000000000016916c574b4e382c788daf9\");\n    const uint64_t MAINNET_ASSUMED_BLOCKCHAIN_SIZE = 211;\n    const uint64_t MAINNET_ASSUMED_CHAINSTATE_SIZE = 3;\n\n    const BlockHash TESTNET_DEFAULT_ASSUME_VALID = BlockHash::fromHex(\"0000000001ef45e07fc7d2918c689a7e995fba24124ecc0f449632b17554eec1\");\n    const uint256 TESTNET_MINIMUM_CHAIN_WORK = uint256S(\"00000000000000000000000000000000000000000000006e9e42b8468784a16e\");\n    const uint64_t TESTNET_ASSUMED_BLOCKCHAIN_SIZE = 55;\n    const uint64_t TESTNET_ASSUMED_CHAINSTATE_SIZE = 2;\n\x7d // namespace ChainParamsConstants\n\n\n"

/-! ## Data model (spec section 3) -/

/-- The fixed enumerated set of supported networks, in canonical order. -/
inductive Network
  | main
  | test
  deriving DecidableEq, BEq

def canonicalNetworks : List Network := [Network.main, Network.test]

/-- Upper-case tag used for a network's constant names in the artifact. -/
def networkTag : Network → String
  | Network.main => "MAINNET"
  | Network.test => "TESTNET"

/-- Modelled from the spec: AnchorRecord (section 3) — the values the
generator derives for one network; the generator is not under src/. -/
structure AnchorRecord where
  network : Network
  assumeValid : Nat
  minimumChainWork : Nat
  assumedBlockchainSize : Nat
  assumedChainstateSize : Nat
  deriving DecidableEq

/-- The mainnet AnchorRecord whose emission is the mainnet block of the
artifact (values read off the source file). -/
def mainnetRecord : AnchorRecord :=
  { network := Network.main
    assumeValid := 0x0000000000000000035571d03330a6a5f9e36dc6b279c1e269f5c8bd1b8f9333
    minimumChainWork := 0x0000000000000000000000000000000000000000016916c574b4e382c788daf9
    assumedBlockchainSize := MAINNET_ASSUMED_BLOCKCHAIN_SIZE
    assumedChainstateSize := MAINNET_ASSUMED_CHAINSTATE_SIZE }

/-- The testnet AnchorRecord whose emission is the testnet block of the
artifact (values read off the source file). -/
def testnetRecord : AnchorRecord :=
  { network := Network.test
    assumeValid := 0x0000000001ef45e07fc7d2918c689a7e995fba24124ecc0f449632b17554eec1
    minimumChainWork := 0x00000000000000000000000000000000000000000000006e9e42b8468784a16e
    assumedBlockchainSize := TESTNET_ASSUMED_BLOCKCHAIN_SIZE
    assumedChainstateSize := TESTNET_ASSUMED_CHAINSTATE_SIZE }

/-! ## Constants Emitter (spec section 4.3)

Modelled from the spec: the Emitter renders an ordered set of
AnchorRecord (one per network, canonical enumeration order) into the
stable textual artifact; the generator script is not under src/.  The
four field lines of a per-network block are kept as separate
definitions so that the fixed field order is explicit. -/

def renderAssumeValidLine (r : AnchorRecord) : String :=
  "    const BlockHash " ++ networkTag r.network ++ "_DEFAULT_ASSUME_VALID = BlockHash::fromHex(\"" ++ toHex64 r.assumeValid ++ "\");\n"

def renderMinimumWorkLine (r : AnchorRecord) : String :=
  "    const uint256 " ++ networkTag r.network ++ "_MINIMUM_CHAIN_WORK = uint256S(\"" ++ toHex64 r.minimumChainWork ++ "\");\n"

def renderBlockchainSizeLine (r : AnchorRecord) : String :=
  "    const uint64_t " ++ networkTag r.network ++ "_ASSUMED_BLOCKCHAIN_SIZE = " ++ toString r.assumedBlockchainSize ++ ";\n"

def renderChainstateSizeLine (r : AnchorRecord) : String :=
  "    const uint64_t " ++ networkTag r.network ++ "_ASSUMED_CHAINSTATE_SIZE = " ++ toString r.assumedChainstateSize ++ ";\n"

/-- One per-network constant block: exactly four fields, in fixed order. -/
def renderBlock (r : AnchorRecord) : String :=
  renderAssumeValidLine r ++ renderMinimumWorkLine r ++ renderBlockchainSizeLine r ++ renderChainstateSizeLine r

def artifactHeader : String :=
  "/**\n * @generated by contrib/devtools/chainparams/generate_chainparams_constants.py\n */\n\n#include <chainparamsconstants.h>\n\nnamespace ChainParamsConstants \x7b\n"

def artifactFooter : String :=
  "\x7d // namespace ChainParamsConstants\n\n\n"

def renderBlocks : List AnchorRecord → String
  | [] => ""
  | [r] => renderBlock r
  | r :: rs => renderBlock r ++ "\n" ++ renderBlocks rs

/-- Modelled from the spec: the Emitter's pure rendering function. -/
def render (rs : List AnchorRecord) : String :=
  artifactHeader ++ renderBlocks rs ++ artifactFooter

/-! ## Checkpoint and Work-Threshold Validator (spec section 4.4) -/

/-- The raw compiled-in constants for one network, as found in the artifact. -/
structure RawConstants where
  assumeValidHex : String
  minimumChainWorkHex : String
  assumedBlockchainSize : Nat
  assumedChainstateSize : Nat

/-- The mainnet raw constants of the artifact. -/
def mainnetRawConstants : RawConstants :=
  { assumeValidHex := MAINNET_DEFAULT_ASSUME_VALID_HEX
    minimumChainWorkHex := MAINNET_MINIMUM_CHAIN_WORK_HEX
    assumedBlockchainSize := MAINNET_ASSUMED_BLOCKCHAIN_SIZE
    assumedChainstateSize := MAINNET_ASSUMED_CHAINSTATE_SIZE }

/-- The testnet raw constants of the artifact. -/
def testnetRawConstants : RawConstants :=
  { assumeValidHex := TESTNET_DEFAULT_ASSUME_VALID_HEX
    minimumChainWorkHex := TESTNET_MINIMUM_CHAIN_WORK_HEX
    assumedBlockchainSize := TESTNET_ASSUMED_BLOCKCHAIN_SIZE
    assumedChainstateSize := TESTNET_ASSUMED_CHAINSTATE_SIZE }

/-- The Validator's immutable startup state: the assume-valid anchor hash
(none when the fast path is disabled) and the minimum-work threshold. -/
structure ValidatorState where
  anchor : Option Nat
  minWork : Nat

/-- Modelled from the spec: Validator startup (section 4.4) — loads the
compiled-in constants for the active network; the node-side consumer is not
under src/.  Absent or malformed constants fail closed: the anchor becomes
none (fast path disabled) and the minimum-work threshold defaults to the
protocol's absolute minimum, zero. -/
def loadValidator : Option RawConstants → ValidatorState
  | none => { anchor := none, minWork := 0 }
  | some raw =>
    { anchor := blockHashFromHex raw.assumeValidHex
      minWork := (uint256S raw.minimumChainWorkHex).getD 0 }

/-- The Validator loaded with the artifact's mainnet constants. -/
def mainnetValidator : ValidatorState :=
  loadValidator (some mainnetRawConstants)

/-- Height of the first occurrence of a hash on a chain (hashes listed by
height, index 0 = genesis), none when the hash is not on the chain. -/
def findHeight (a : Nat) : List Nat → Option Nat
  | [] => none
  | h :: t => if h = a then some 0 else (findHeight a t).map (fun i => i + 1)

/-- Modelled from the spec: the Validator decision function isPreApproved
(section 4.4); the node-side consumer is not under src/.  The best-work
chain is the list of block hashes by height; the block is pre-approved iff
it sits on that chain at or below the height of the assume-valid anchor
(so the anchor's chain vouches for its ancestry).  With no anchor the fast
path is disabled. -/
def isPreApproved (chain : List Nat) (v : ValidatorState) (blockHash : Nat) (height : Nat) : Bool :=
  match v.anchor with
  | none => false
  | some anchorHash =>
    match findHeight anchorHash chain with
    | none => false
    | some anchorHt => (chain[height]? == some blockHash) && decide (height ≤ anchorHt)

/-- Modelled from the spec: the Validator decision function meetsMinimumWork
(section 4.4); the node-side consumer is not under src/. -/
def meetsMinimumWork (v : ValidatorState) (cumulativeWork : Nat) : Bool :=
  decide (v.minWork ≤ cumulativeWork)

/-! ## Chain Surveyor and Anchor Selector (spec sections 4.1, 4.2) -/

/-- The error taxonomy of the generator (spec section 7). -/
inductive GenError
  | sourceUnavailable
  | chainTooShort
  | regressionDetected
  deriving DecidableEq, BEq

/-- NetworkProfile (spec section 3): network identity, endpoint descriptor
and safety-margin depth. -/
structure NetworkProfile where
  network : Network
  endpoint : String
  margin : Nat

/-- The read-only view of a trusted reference node that the Surveyor
queries: tip height, hash and cumulative work by height, on-disk sizes. -/
structure ChainSource where
  tipHeight : Nat
  hashAt : Nat → Nat
  workAt : Nat → Nat
  blockBytes : Nat
  chainstateBytes : Nat

/-- ChainSurvey (spec section 3): the facts gathered for one network in one
run, including the hash and cumulative work at the matured anchor height
(tip minus margin). -/
structure ChainSurvey where
  network : Network
  tipHeight : Nat
  tipHash : Nat
  anchorHash : Nat
  anchorWork : Nat
  blockBytes : Nat
  chainstateBytes : Nat

/-- Modelled from the spec: Chain Surveyor (section 4.1); the generator is
not under src/.  Fails with chainTooShort when the chain has not reached
the safety margin. -/
def surveyChain (p : NetworkProfile) (src : ChainSource) : Except GenError ChainSurvey :=
  if src.tipHeight < p.margin then Except.error GenError.chainTooShort
  else Except.ok
    { network := p.network
      tipHeight := src.tipHeight
      tipHash := src.hashAt src.tipHeight
      anchorHash := src.hashAt (src.tipHeight - p.margin)
      anchorWork := src.workAt (src.tipHeight - p.margin)
      blockBytes := src.blockBytes
      chainstateBytes := src.chainstateBytes }

def GiB : Nat := 1073741824

/-- Round a byte count to the nearest whole gibibyte. -/
def roundToGiB (bytes : Nat) : Nat :=
  (bytes + GiB / 2) / GiB

/-- The AnchorRecord derived from a survey: anchor hash and work taken
verbatim, sizes rounded to whole gibibytes. -/
def anchorRecordOfSurvey (s : ChainSurvey) : AnchorRecord :=
  { network := s.network
    assumeValid := s.anchorHash
    minimumChainWork := s.anchorWork
    assumedBlockchainSize := roundToGiB s.blockBytes
    assumedChainstateSize := roundToGiB s.chainstateBytes }

/-- Modelled from the spec: Anchor Selector (section 4.2); the generator is
not under src/.  Fails with regressionDetected when the newly computed
minimum work is lower than the previously recorded value for the network. -/
def selectAnchor (prevWork : Option Nat) (s : ChainSurvey) : Except GenError AnchorRecord :=
  match prevWork with
  | some prev =>
    if s.anchorWork < prev then Except.error GenError.regressionDetected
    else Except.ok (anchorRecordOfSurvey s)
  | none => Except.ok (anchorRecordOfSurvey s)

/-! ## A full generation run (spec sections 5, 7) -/

def isOkE : Except GenError AnchorRecord → Bool
  | Except.ok _ => true
  | Except.error _ => false

/-- The configuration of one generation run: a reference source, the
previously recorded minimum work and a profile, per network. -/
structure GenRun where
  sources : Network → ChainSource
  prevWork : Network → Option Nat
  profileFor : Network → NetworkProfile

/-- Survey one network and select its anchor. -/
def surveyAndSelect (run : GenRun) (n : Network) : Except GenError AnchorRecord :=
  (surveyChain (run.profileFor n) (run.sources n)).bind (selectAnchor (run.prevWork n))

/-- The outcome of a generation run: the artifact in force afterwards and
the per-network survey/selection results. -/
structure GenOutcome where
  artifact : String
  results : List (Network × Except GenError AnchorRecord)

/-- Modelled from the spec: the overall generation run (sections 5 and 7);
the generator is not under src/.  Every network is surveyed (a failure for
one network does not abort the others); the Emitter runs only when all
networks succeeded, otherwise the previous artifact remains in force. -/
def runGeneration (prevArtifact : String) (run : GenRun) : GenOutcome :=
  let results := canonicalNetworks.map (fun n => (n, surveyAndSelect run n))
  if results.all (fun pr => isOkE pr.2) then
    { artifact := render (results.filterMap (fun pr => pr.2.toOption)), results := results }
  else
    { artifact := prevArtifact, results := results }

/-! ## Provenance kept out of the compiled path (spec sections 3, 4.3) -/

/-- ConstantsArtifact (spec section 3): the compiled text plus provenance
metadata used for audit only. -/
structure ConstantsArtifact where
  text : String
  generatedAt : Nat
  sourceEndpoint : String

/-- Modelled from the spec: the Emitter packaging the rendered text with
provenance metadata (section 4.3); the generator is not under src/.  The
compiled text depends only on the records. -/
def emitArtifact (timestamp : Nat) (endpoint : String) (rs : List AnchorRecord) : ConstantsArtifact :=
  { text := render rs, generatedAt := timestamp, sourceEndpoint := endpoint }

/-- Semantic identity of two AnchorRecords: all five fields agree. -/
def AnchorRecord.SemEq (a b : AnchorRecord) : Prop :=
  a.network = b.network ∧ a.assumeValid = b.assumeValid ∧
  a.minimumChainWork = b.minimumChainWork ∧
  a.assumedBlockchainSize = b.assumedBlockchainSize ∧
  a.assumedChainstateSize = b.assumedChainstateSize

/-! ## Helper lemmas about findHeight -/

theorem findHeight_getElem (a : Nat) (cs : List Nat) : ∀ i, findHeight a cs = some i → cs[i]? = some a := by
  induction cs with
  | nil => intro i hf; simp [findHeight] at hf
  | cons h t ih =>
    intro i hf
    by_cases hha : h = a
    · simp only [findHeight, if_pos hha] at hf
      injection hf with hf
      subst hf
      rw [List.getElem?_cons_zero, hha]
    · simp only [findHeight, if_neg hha, Option.map_eq_some'] at hf
      obtain ⟨j, hj, rfl⟩ := hf
      rw [List.getElem?_cons_succ]
      exact ih j hj

theorem findHeight_of_getElem (a : Nat) : ∀ (cs : List Nat), cs.Nodup → ∀ i, cs[i]? = some a → findHeight a cs = some i := by
  intro cs
  induction cs with
  | nil => intro _ i h; simp at h
  | cons h t ih =>
    intro hnd i hget
    rw [List.nodup_cons] at hnd
    match i with
    | 0 =>
      rw [List.getElem?_cons_zero] at hget
      injection hget with hha
      simp [findHeight, hha]
    | Nat.succ j =>
      rw [List.getElem?_cons_succ] at hget
      have hne : h ≠ a := by
        intro hha
        subst hha
        exact hnd.1 (List.getElem?_mem hget)
      simp [findHeight, hne, ih hnd.2 j hget]

theorem getElem?_inj_of_nodup (cs : List Nat) (hnd : cs.Nodup) {a i j : Nat}
    (hi : cs[i]? = some a) (hj : cs[j]? = some a) : i = j := by
  have h1 := findHeight_of_getElem a cs hnd i hi
  have h2 := findHeight_of_getElem a cs hnd j hj
  rw [h1] at h2
  injection h2

/-! ## Claim theorems -/

/-- C1: on a duplicate-free best-work chain carrying the configured
assume-valid anchor, isPreApproved returns true exactly when the block sits
on the chain at or below a height carrying the anchor hash (so the anchor
vouches for its ancestry); in particular it returns true for the block at
the anchor height with the matching hash and false for any block at that
height with a different hash. -/
theorem isPreApproved_spec (chain : List Nat) (v : ValidatorState) (anchorHash anchorHt : Nat)
    (hv : v.anchor = some anchorHash) (hnd : chain.Nodup) (hon : chain[anchorHt]? = some anchorHash) :
    (∀ blockHash height, isPreApproved chain v blockHash height = true ↔
      (chain[height]? = some blockHash ∧ ∃ k, chain[k]? = some anchorHash ∧ height ≤ k))
    ∧ isPreApproved chain v anchorHash anchorHt = true
    ∧ (∀ blockHash, blockHash ≠ anchorHash → isPreApproved chain v blockHash anchorHt = false) := by
  have hfind : findHeight anchorHash chain = some anchorHt := findHeight_of_getElem _ _ hnd _ hon
  have hiff : ∀ blockHash height, isPreApproved chain v blockHash height = true ↔
      (chain[height]? = some blockHash ∧ ∃ k, chain[k]? = some anchorHash ∧ height ≤ k) := by
    intro blockHash height
    simp only [isPreApproved, hv, hfind, Bool.and_eq_true, beq_iff_eq, decide_eq_true_eq]
    constructor
    · rintro ⟨hb, hle⟩
      exact ⟨hb, anchorHt, hon, hle⟩
    · rintro ⟨hb, k, hk, hle⟩
      exact ⟨hb, (getElem?_inj_of_nodup chain hnd hk hon) ▸ hle⟩
  refine ⟨hiff, ?_, ?_⟩
  · exact (hiff anchorHash anchorHt).mpr ⟨hon, anchorHt, hon, le_refl _⟩
  · intro blockHash hne
    apply Bool.eq_false_iff.mpr
    intro htrue
    rcases (hiff blockHash anchorHt).mp htrue with ⟨hb, _⟩
    rw [hon] at hb
    injection hb with hb
    exact hne hb.symm

/-- Witness for C1: a concrete three-block chain anchored at height 1;
the anchor block itself is pre-approved, a fork block at the anchor height
is not. -/
theorem isPreApproved_spec_witness :
    isPreApproved [10, 20, 30] { anchor := some 20, minWork := 0 } 20 1 = true
    ∧ isPreApproved [10, 20, 30] { anchor := some 20, minWork := 0 } 99 1 = false :=
  ⟨(isPreApproved_spec [10, 20, 30] { anchor := some 20, minWork := 0 } 20 1 rfl (by decide) rfl).2.1,
   (isPreApproved_spec [10, 20, 30] { anchor := some 20, minWork := 0 } 20 1 rfl (by decide) rfl).2.2 99 (by decide)⟩

/-- C2: the Validator loaded with the artifact's mainnet constants accepts a
cumulative work value exactly when it is at least the compiled-in minimum
chain work; it accepts the threshold itself and rejects one unit below. -/
theorem meetsMinimumWork_spec :
    (∀ W : Nat, meetsMinimumWork mainnetValidator W = true ↔ mainnetRecord.minimumChainWork ≤ W)
    ∧ meetsMinimumWork mainnetValidator mainnetRecord.minimumChainWork = true
    ∧ meetsMinimumWork mainnetValidator (mainnetRecord.minimumChainWork - 1) = false := by
  have hmw : mainnetValidator.minWork = mainnetRecord.minimumChainWork := by decide
  have hpos : 0 < mainnetRecord.minimumChainWork := by decide
  refine ⟨?_, ?_, ?_⟩
  · intro W
    simp [meetsMinimumWork, hmw]
  · simp [meetsMinimumWork, hmw]
  · simp only [meetsMinimumWork, hmw, decide_eq_false_iff_not]
    omega

/-- C3: the Anchor Selector never lets the minimum-work floor regress: a
successful selection against a previously recorded value yields a record
whose minimum work is at least that value, and a survey whose work is lower
than the previously recorded value fails with regressionDetected. -/
theorem selectAnchor_monotone (prev : Nat) (s : ChainSurvey) :
    (∀ rec, selectAnchor (some prev) s = Except.ok rec → prev ≤ rec.minimumChainWork)
    ∧ (s.anchorWork < prev → selectAnchor (some prev) s = Except.error GenError.regressionDetected) := by
  constructor
  · intro rec hok
    by_cases hlt : s.anchorWork < prev
    · simp [selectAnchor, if_pos hlt] at hok
    · simp only [selectAnchor, if_neg hlt, Except.ok.injEq] at hok
      subst hok
      exact Nat.le_of_not_lt hlt
  · intro hlt
    simp [selectAnchor, if_pos hlt]

/-- A survey whose anchor work (150) exceeds the previously recorded
value used in the C3 witness. -/
def surveyHighWork : ChainSurvey :=
  { network := Network.main, tipHeight := 1000, tipHash := 11, anchorHash := 7,
    anchorWork := 150, blockBytes := 0, chainstateBytes := 0 }

/-- A survey whose anchor work (50) regresses below the previously recorded
value used in the C3 witness. -/
def surveyLowWork : ChainSurvey :=
  { network := Network.main, tipHeight := 1000, tipHash := 11, anchorHash := 7,
    anchorWork := 50, blockBytes := 0, chainstateBytes := 0 }

/-- Witness for C3: with previously recorded work 100, a survey at work 150
keeps the floor at or above 100, and a survey at work 50 is rejected as a
regression. -/
theorem selectAnchor_monotone_witness :
    100 ≤ (anchorRecordOfSurvey surveyHighWork).minimumChainWork
    ∧ selectAnchor (some 100) surveyLowWork = Except.error GenError.regressionDetected :=
  ⟨(selectAnchor_monotone 100 surveyHighWork).1 (anchorRecordOfSurvey surveyHighWork) rfl,
   (selectAnchor_monotone 100 surveyLowWork).2 (by decide)⟩

/-- C4: the Validator fails closed on absent or malformed constants: with no
constants isPreApproved is constantly false and meetsMinimumWork constantly
true; a malformed assume-valid hash disables the fast path for every input,
and a malformed minimum-work string makes the filter accept every input. -/
theorem validator_fails_closed :
    (∀ chain blockHash height, isPreApproved chain (loadValidator none) blockHash height = false)
    ∧ (∀ W, meetsMinimumWork (loadValidator none) W = true)
    ∧ (∀ raw : RawConstants, blockHashFromHex raw.assumeValidHex = none →
        ∀ chain blockHash height, isPreApproved chain (loadValidator (some raw)) blockHash height = false)
    ∧ (∀ raw : RawConstants, uint256S raw.minimumChainWorkHex = none →
        ∀ W, meetsMinimumWork (loadValidator (some raw)) W = true) := by
  refine ⟨?_, ?_, ?_, ?_⟩
  · intro chain blockHash height
    rfl
  · intro W
    simp [meetsMinimumWork, loadValidator]
  · intro raw hmal chain blockHash height
    simp [isPreApproved, loadValidator, hmal]
  · intro raw hmal W
    simp [meetsMinimumWork, loadValidator, hmal]

/-- Raw constants with malformed hex fields, used in the C4 witness. -/
def malformedRawConstants : RawConstants :=
  { assumeValidHex := "zz", minimumChainWorkHex := "zz",
    assumedBlockchainSize := 0, assumedChainstateSize := 0 }

/-- Witness for C4: a Validator loaded with malformed constants pre-approves
nothing and its work filter rejects nothing. -/
theorem validator_fails_closed_witness :
    isPreApproved [0, 1] (loadValidator (some malformedRawConstants)) 5 0 = false
    ∧ meetsMinimumWork (loadValidator (some malformedRawConstants)) 0 = true :=
  ⟨validator_fails_closed.2.2.1 malformedRawConstants (by decide) [0, 1] 5 0,
   validator_fails_closed.2.2.2 malformedRawConstants (by decide) 0⟩

theorem AnchorRecord.eq_of_semEq {a b : AnchorRecord} (h : AnchorRecord.SemEq a b) : a = b := by
  obtain ⟨h1, h2, h3, h4, h5⟩ := h
  cases a
  cases b
  simp_all

/-- C5: the Emitter is deterministic and idempotent: semantically identical
record lists render to byte-identical text, and the compiled text of the
emitted artifact is independent of provenance (timestamp, endpoint) — so
two runs on identical records yield byte-identical artifacts. -/
theorem emitter_deterministic (rs₁ rs₂ : List AnchorRecord)
    (h : List.Forall₂ AnchorRecord.SemEq rs₁ rs₂) :
    render rs₁ = render rs₂
    ∧ ∀ t₁ t₂ e₁ e₂, (emitArtifact t₁ e₁ rs₁).text = (emitArtifact t₂ e₂ rs₂).text := by
  have heq : rs₁ = rs₂ := by
    induction h with
    | nil => rfl
    | cons hab _ ih => rw [AnchorRecord.eq_of_semEq hab, ih]
  subst heq
  exact ⟨rfl, fun t₁ t₂ e₁ e₂ => rfl⟩

/-- Witness for C5: two runs of the Emitter on the artifact's records, with
different provenance, produce byte-identical compiled text. -/
theorem emitter_deterministic_witness :
    render [mainnetRecord, testnetRecord] = render [mainnetRecord, testnetRecord]
    ∧ (emitArtifact 1 "nodeA" [mainnetRecord, testnetRecord]).text
      = (emitArtifact 2 "nodeB" [mainnetRecord, testnetRecord]).text :=
  have h := emitter_deterministic [mainnetRecord, testnetRecord] [mainnetRecord, testnetRecord]
    (List.Forall₂.cons ⟨rfl, rfl, rfl, rfl, rfl⟩
      (List.Forall₂.cons ⟨rfl, rfl, rfl, rfl, rfl⟩ List.Forall₂.nil))
  ⟨h.1, h.2 1 2 "nodeA" "nodeB"⟩

set_option maxRecDepth 20000 in
/-- C6: the rendered artifact for the two records, mainnet first, is the
source file byte for byte; the record order follows the canonical network
enumeration and each per-network block is exactly the four field lines in
fixed order. -/
theorem emitted_artifact_layout :
    render [mainnetRecord, testnetRecord] = chainparamsconstants_cpp
    ∧ [mainnetRecord, testnetRecord].map AnchorRecord.network = canonicalNetworks
    ∧ (∀ r : AnchorRecord, renderBlock r =
        renderAssumeValidLine r ++ renderMinimumWorkLine r
          ++ renderBlockchainSizeLine r ++ renderChainstateSizeLine r) :=
  ⟨by decide, rfl, fun r => rfl⟩

/-- C7: when the tip height is at least the margin, the survey succeeds and
the Selector emits the record anchored at height tip − margin: the hash at
that height, the cumulative work there verbatim, and the two sizes rounded
to whole gibibytes. -/
theorem selectAnchor_picks_survey (p : NetworkProfile) (src : ChainSource)
    (h : p.margin ≤ src.tipHeight) :
    ∃ s, surveyChain p src = Except.ok s
      ∧ selectAnchor none s = Except.ok
        { network := p.network
          assumeValid := src.hashAt (src.tipHeight - p.margin)
          minimumChainWork := src.workAt (src.tipHeight - p.margin)
          assumedBlockchainSize := roundToGiB src.blockBytes
          assumedChainstateSize := roundToGiB src.chainstateBytes } := by
  refine ⟨{ network := p.network, tipHeight := src.tipHeight, tipHash := src.hashAt src.tipHeight,
            anchorHash := src.hashAt (src.tipHeight - p.margin),
            anchorWork := src.workAt (src.tipHeight - p.margin),
            blockBytes := src.blockBytes, chainstateBytes := src.chainstateBytes }, ?_, rfl⟩
  rw [surveyChain, if_neg (Nat.not_lt.mpr h)]

/-- The end-to-end scenario profile: mainnet, safety margin 100. -/
def endToEndProfile : NetworkProfile :=
  { network := Network.main, endpoint := "reference-node", margin := 100 }

/-- The end-to-end scenario source: tip height 800000; the hash at height n
is n + 5000000 and the cumulative work at height n is 2n; on-disk sizes
round to 211 and 3 gibibytes. -/
def endToEndSource : ChainSource :=
  { tipHeight := 800000, hashAt := fun n => n + 5000000, workAt := fun n => n * 2,
    blockBytes := 226623271108, chainstateBytes := 3221225472 }

/-- Witness for C7: the survey at tip 800000 with margin 100 anchors at
height 799900 with its hash, its work verbatim, and the sizes in whole
gibibytes. -/
theorem selectAnchor_picks_survey_witness :
    ∃ s, surveyChain endToEndProfile endToEndSource = Except.ok s
      ∧ selectAnchor none s = Except.ok
        { network := Network.main, assumeValid := 5799900, minimumChainWork := 1599800,
          assumedBlockchainSize := 211, assumedChainstateSize := 3 } :=
  selectAnchor_picks_survey endToEndProfile endToEndSource (by decide)

/-- C8: generation is all-or-nothing: when any network's survey or
selection fails, the previous artifact remains in force, while the results
still record every network's own survey/selection outcome (one network's
failure does not abort the others). -/
theorem generation_all_or_nothing (prevArtifact : String) (run : GenRun) (n : Network)
    (hfail : isOkE (surveyAndSelect run n) = false) :
    (runGeneration prevArtifact run).artifact = prevArtifact
    ∧ (runGeneration prevArtifact run).results =
        canonicalNetworks.map (fun m => (m, surveyAndSelect run m)) := by
  have hallfalse : (canonicalNetworks.map (fun m => (m, surveyAndSelect run m))).all
      (fun pr => isOkE pr.2) = false := by
    cases n <;> simp [canonicalNetworks, hfail]
  refine ⟨?_, ?_⟩ <;> simp [runGeneration, hallfalse]

/-- A generation run whose mainnet source is too short (tip 5, margin 100)
while testnet is long enough, used in the C8 witness. -/
def failingRun : GenRun :=
  { sources := fun n => match n with
      | Network.main =>
        { tipHeight := 5, hashAt := fun k => k, workAt := fun k => k,
          blockBytes := 0, chainstateBytes := 0 }
      | Network.test =>
        { tipHeight := 1000, hashAt := fun k => k, workAt := fun k => k,
          blockBytes := 0, chainstateBytes := 0 }
    prevWork := fun _ => none
    profileFor := fun n => { network := n, endpoint := "ref", margin := 100 } }

/-- Witness for C8: with mainnet failing chainTooShort, the previous
artifact stays in force and both networks' outcomes are recorded. -/
theorem generation_all_or_nothing_witness :
    (runGeneration "previous" failingRun).artifact = "previous"
    ∧ (runGeneration "previous" failingRun).results =
        canonicalNetworks.map (fun m => (m, surveyAndSelect failingRun m)) :=
  generation_all_or_nothing "previous" failingRun Network.main (by decide)

/-- C9: parsing the compiled-in constants never fails: all four hex fields
are exactly 64 hex digits, the two hash parses and the two work parses
succeed with the recorded values, and the Validator's malformed-constants
fallback is not taken for either network of this artifact. -/
theorem constants_parse :
    blockHashFromHex MAINNET_DEFAULT_ASSUME_VALID_HEX = some mainnetRecord.assumeValid
    ∧ uint256S MAINNET_MINIMUM_CHAIN_WORK_HEX = some mainnetRecord.minimumChainWork
    ∧ blockHashFromHex TESTNET_DEFAULT_ASSUME_VALID_HEX = some testnetRecord.assumeValid
    ∧ uint256S TESTNET_MINIMUM_CHAIN_WORK_HEX = some testnetRecord.minimumChainWork
    ∧ (MAINNET_DEFAULT_ASSUME_VALID_HEX.length = 64
        ∧ MAINNET_DEFAULT_ASSUME_VALID_HEX.data.all isHexDigit = true)
    ∧ (MAINNET_MINIMUM_CHAIN_WORK_HEX.length = 64
        ∧ MAINNET_MINIMUM_CHAIN_WORK_HEX.data.all isHexDigit = true)
    ∧ (TESTNET_DEFAULT_ASSUME_VALID_HEX.length = 64
        ∧ TESTNET_DEFAULT_ASSUME_VALID_HEX.data.all isHexDigit = true)
    ∧ (TESTNET_MINIMUM_CHAIN_WORK_HEX.length = 64
        ∧ TESTNET_MINIMUM_CHAIN_WORK_HEX.data.all isHexDigit = true)
    ∧ (loadValidator (some mainnetRawConstants)).anchor.isSome = true
    ∧ (loadValidator (some testnetRawConstants)).anchor.isSome = true := by
  decide

/-- C10: every minimum-chain-work value and every assumed-size constant of
the artifact is strictly positive, for both networks; hence the work filter
built from the artifact rejects the zero-work chain and is never the
degenerate accept-everything filter. -/
theorem constants_strictly_positive :
    0 < mainnetRecord.minimumChainWork ∧ 0 < testnetRecord.minimumChainWork
    ∧ 0 < MAINNET_ASSUMED_BLOCKCHAIN_SIZE ∧ 0 < MAINNET_ASSUMED_CHAINSTATE_SIZE
    ∧ 0 < TESTNET_ASSUMED_BLOCKCHAIN_SIZE ∧ 0 < TESTNET_ASSUMED_CHAINSTATE_SIZE
    ∧ 0 < (loadValidator (some mainnetRawConstants)).minWork
    ∧ 0 < (loadValidator (some testnetRawConstants)).minWork
    ∧ meetsMinimumWork (loadValidator (some mainnetRawConstants)) 0 = false
    ∧ meetsMinimumWork (loadValidator (some testnetRawConstants)) 0 = false := by
  decide

end ChainParams
